import Mathlib

/-!
Embedding of the paper-evaluation pipeline (tools/score_papers.py and
tools/summarize_papers.py): the score-response parser and validator, the
batch score rescaler, the scoring row selection, and the per-paper
summarization step.
-/

set_option maxRecDepth 4096

namespace ReasoningHub

/-! ## Python string primitives used by the tools -/

/-- Whitespace characters removed by Python `str.strip()` (ASCII subset). -/
def pySpace (c : Char) : Bool :=
  c = ' ' || c = '\t' || c = '\n' || c = '\r' || c = '\x0b' || c = '\x0c'

def dropLeadSpace : List Char → List Char
  | [] => []
  | c :: cs => if pySpace c then dropLeadSpace cs else c :: cs

/-- Python `text.strip()`. -/
def pyStrip (s : String) : String :=
  ⟨(dropLeadSpace (dropLeadSpace s.data.reverse).reverse)⟩

/-- Whether `pat` occurs at the head of `cs`. -/
def leadMatch : List Char → List Char → Bool
  | [], _ => true
  | _ :: _, [] => false
  | p :: ps, c :: cs => p = c && leadMatch ps cs

/-- Python `pat in s` membership test for a non-empty pattern. -/
def pyInStr (pat : String) (s : String) : Bool :=
  go pat.data s.data
where
  go (p : List Char) : List Char → Bool
    | [] => leadMatch p []
    | c :: cs => leadMatch p (c :: cs) || go p cs

/-- Python `s.replace(pat, rep)` for a non-empty pattern (left-to-right,
non-overlapping), with explicit fuel. -/
def replaceGo (pat rep : List Char) : Nat → List Char → List Char
  | 0, cs => cs
  | _ + 1, [] => []
  | fuel + 1, c :: cs =>
    if leadMatch pat (c :: cs) then
      rep ++ replaceGo pat rep fuel ((c :: cs).drop pat.length)
    else
      c :: replaceGo pat rep fuel cs

def pyReplace (s pat rep : String) : String :=
  ⟨replaceGo pat.data rep.data (s.data.length + 1) s.data⟩

/-- Python `s.startswith(pat)`. -/
def pyStarts (s pat : String) : Bool := leadMatch pat.data s.data

/-- Python `s.endswith(pat)`. -/
def pyEnds (s pat : String) : Bool := leadMatch pat.data.reverse s.data.reverse

/-- Python `s[n:]`. -/
def pyDropLeft (s : String) (n : Nat) : String := ⟨s.data.drop n⟩

/-- Python `s[:-n]` (for `n ≤ len(s)`; empty-safe). -/
def pyDropRight (s : String) (n : Nat) : String := ⟨(s.data.reverse.drop n).reverse⟩

/-! ## JSON values and `json.loads`

Python's `json` module distinguishes `int` from `float` (a fractional
literal decodes to `float`); `True`/`False` decode from `true`/`false` and
are `bool`, a subclass of `int`.  A float value is carried here as its
decimal lexeme, which is what the tools interpolate into error messages. -/

inductive Json where
  | jnull
  | jbool (b : Bool)
  | jint (n : Int)
  | jfloat (lex : String)
  | jstr (s : String)
  | jarr (elems : List Json)
  | jobj (fields : List (String × Json))
deriving Repr

def jsonWs (c : Char) : Bool :=
  c = ' ' || c = '\t' || c = '\n' || c = '\r'

def skipWs : List Char → List Char
  | [] => []
  | c :: cs => if jsonWs c then skipWs cs else c :: cs

def isDigit (c : Char) : Bool := '0' ≤ c && c ≤ '9'

def spanDigits : List Char → (List Char × List Char)
  | [] => ([], [])
  | c :: cs =>
    if isDigit c then
      let (ds, rest) := spanDigits cs
      (c :: ds, rest)
    else ([], c :: cs)

def hexVal (c : Char) : Option Nat :=
  if '0' ≤ c ∧ c ≤ '9' then some (c.toNat - 48)
  else if 'a' ≤ c ∧ c ≤ 'f' then some (c.toNat - 87)
  else if 'A' ≤ c ∧ c ≤ 'F' then some (c.toNat - 55)
  else none

def escChar (c : Char) : Option Char :=
  if c = '"' then some '"'
  else if c = '\\' then some '\\'
  else if c = '/' then some '/'
  else if c = 'b' then some '\x08'
  else if c = 'f' then some '\x0c'
  else if c = 'n' then some '\n'
  else if c = 'r' then some '\r'
  else if c = 't' then some '\t'
  else none

/-- Decode a JSON string body after the opening quote; returns the decoded
characters and the input remaining after the closing quote. -/
def parseStringBody : List Char → Except String (List Char × List Char)
  | [] => .error "Unterminated string"
  | '"' :: rest => .ok ([], rest)
  | '\\' :: [] => .error "Unterminated string"
  | '\\' :: e :: rest =>
    match escChar e with
    | some c =>
      match parseStringBody rest with
      | .ok (s, r) => .ok (c :: s, r)
      | .error msg => .error msg
    | none =>
      if e = 'u' then
        match rest with
        | h1 :: h2 :: h3 :: h4 :: rest3 =>
          match hexVal h1, hexVal h2, hexVal h3, hexVal h4 with
          | some a, some b, some c, some d =>
            (match parseStringBody rest3 with
             | .ok (s, r) => .ok (Char.ofNat (((a * 16 + b) * 16 + c) * 16 + d) :: s, r)
             | .error msg => .error msg)
          | _, _, _, _ => .error "Invalid unicode escape"
        | _ => .error "Invalid unicode escape"
      else .error "Invalid escape"
  | c :: rest =>
    if c.toNat < 32 then .error "Invalid control character"
    else
      match parseStringBody rest with
      | .ok (s, r) => .ok (c :: s, r)
      | .error msg => .error msg

def digitsToNat (ds : List Char) : Nat :=
  ds.foldl (fun a c => a * 10 + (c.toNat - 48)) 0

/-- Decode one JSON number (the strict grammar Python's scanner uses:
`-?(0|[1-9]\d*)(\.\d+)?([eE][+-]?\d+)?`); a lone `-` or leading junk
fails, a malformed fraction or exponent part is simply not consumed. -/
def parseNumber (cs : List Char) : Except String (Json × List Char) :=
  let (neg, cs1) := match cs with
    | '-' :: r => (true, r)
    | _ => (false, cs)
  match cs1 with
  | [] => .error "Expecting value"
  | c :: _ =>
    if isDigit c then
      let (ds0, rest0) := spanDigits cs1
      -- a leading zero terminates the integer part (strict JSON)
      let (ds, rest) := match ds0 with
        | '0' :: d :: drest => (['0'], d :: drest ++ rest0)
        | _ => (ds0, rest0)
      let (fracPart, rest2) := match rest with
        | '.' :: r =>
          (match spanDigits r with
           | ([], _) => (([] : List Char), '.' :: r)
           | (fs, r2) => ('.' :: fs, r2))
        | _ => ([], rest)
      let (expPart, rest3) := match rest2 with
        | e :: r =>
          if e = 'e' ∨ e = 'E' then
            match r with
            | s :: r1 =>
              if s = '+' ∨ s = '-' then
                (match spanDigits r1 with
                 | ([], _) => (([] : List Char), e :: r)
                 | (es, r2) => (e :: s :: es, r2))
              else
                (match spanDigits r with
                 | ([], _) => (([] : List Char), e :: r)
                 | (es, r2) => (e :: es, r2))
            | [] => ([], e :: r)
          else ([], rest2)
        | [] => ([], rest2)
      if fracPart = [] ∧ expPart = [] then
        let n : Int := Int.ofNat (digitsToNat ds)
        .ok (.jint (if neg then -n else n), rest)
      else
        let lex := (if neg then ['-'] else []) ++ ds ++ fracPart ++ expPart
        .ok (.jfloat ⟨lex⟩, rest3)
    else .error "Expecting value"

mutual

/-- Decode one JSON value from the head of the input. -/
def parseVal : Nat → List Char → Except String (Json × List Char)
  | 0, _ => .error "Out of fuel"
  | fuel + 1, cs =>
    match skipWs cs with
    | [] => .error "Expecting value"
    | '{' :: rest =>
      (match skipWs rest with
       | '}' :: r => .ok (.jobj [], r)
       | other => parseMembers fuel other [])
    | '[' :: rest =>
      (match skipWs rest with
       | ']' :: r => .ok (.jarr [], r)
       | other => parseElems fuel other [])
    | '"' :: rest =>
      (match parseStringBody rest with
       | .ok (s, r) => .ok (.jstr ⟨s⟩, r)
       | .error msg => .error msg)
    | 't' :: rest =>
      if leadMatch ['r', 'u', 'e'] rest then .ok (.jbool true, rest.drop 3)
      else .error "Expecting value"
    | 'f' :: rest =>
      if leadMatch ['a', 'l', 's', 'e'] rest then .ok (.jbool false, rest.drop 4)
      else .error "Expecting value"
    | 'n' :: rest =>
      if leadMatch ['u', 'l', 'l'] rest then .ok (.jnull, rest.drop 3)
      else .error "Expecting value"
    | 'N' :: rest =>
      if leadMatch ['a', 'N'] rest then .ok (.jfloat "nan", rest.drop 2)
      else .error "Expecting value"
    | 'I' :: rest =>
      if leadMatch ['n', 'f', 'i', 'n', 'i', 't', 'y'] rest then
        .ok (.jfloat "inf", rest.drop 7)
      else .error "Expecting value"
    | '-' :: 'I' :: rest =>
      if leadMatch ['n', 'f', 'i', 'n', 'i', 't', 'y'] rest then
        .ok (.jfloat "-inf", rest.drop 7)
      else .error "Expecting value"
    | c :: rest =>
      if isDigit c ∨ c = '-' then parseNumber (c :: rest)
      else .error "Expecting value"

/-- Decode the members of an object after its opening brace (non-empty case). -/
def parseMembers (fuel : Nat) (cs : List Char) (acc : List (String × Json)) :
    Except String (Json × List Char) :=
  match fuel with
  | 0 => .error "Out of fuel"
  | fuel + 1 =>
    match skipWs cs with
    | '"' :: r =>
      (match parseStringBody r with
       | .ok (k, r2) =>
         (match skipWs r2 with
          | ':' :: r4 =>
            (match parseVal fuel r4 with
             | .ok (v, r5) =>
               (match skipWs r5 with
                | ',' :: r7 => parseMembers fuel r7 (acc ++ [(⟨k⟩, v)])
                | '}' :: r7 => .ok (.jobj (acc ++ [(⟨k⟩, v)]), r7)
                | _ => .error "Expecting comma delimiter")
             | .error msg => .error msg)
          | _ => .error "Expecting colon delimiter")
       | .error msg => .error msg)
    | _ => .error "Expecting property name"

/-- Decode the elements of an array after its opening bracket (non-empty case). -/
def parseElems (fuel : Nat) (cs : List Char) (acc : List Json) :
    Except String (Json × List Char) :=
  match fuel with
  | 0 => .error "Out of fuel"
  | fuel + 1 =>
    match parseVal fuel cs with
    | .ok (v, r) =>
      (match skipWs r with
       | ',' :: r2 => parseElems fuel r2 (acc ++ [v])
       | ']' :: r2 => .ok (.jarr (acc ++ [v]), r2)
       | _ => .error "Expecting comma delimiter")
    | .error msg => .error msg

end

/-- Python `json.loads`: decode one value and require only trailing
whitespace after it. -/
def loads (s : String) : Except String Json :=
  match parseVal (s.data.length + 8) s.data with
  | .ok (v, rest) => if skipWs rest = [] then .ok v else .error "Extra data"
  | .error msg => .error msg

/-! ## Dictionary access and the tools' value checks -/

/-- Last binding for a key (Python dict construction keeps the last
duplicate). -/
def lookupLast : List (String × Json) → String → Option Json
  | [], _ => none
  | (k', v) :: rest, k =>
    match lookupLast rest k with
    | some r => some r
    | none => if k' = k then some v else none

/-- Python `data.get(k)` on a decoded object. -/
def jlookup (j : Json) (k : String) : Option Json :=
  match j with
  | .jobj fields => lookupLast fields k
  | _ => none

/-- View a decoded value as a Python `int`: `isinstance(v, int)` holds for
`int` and for `bool` (a subclass with `True == 1`, `False == 0`), and for
nothing else — in particular not for `float`. -/
def asPyInt : Option Json → Option Int
  | some (.jint n) => some n
  | some (.jbool b) => some (if b then 1 else 0)
  | _ => none

/-- `in_range(v, lo, hi)` from `parse_score_response`:
`isinstance(v, int) and lo <= v <= hi`. -/
def in_range (v : Option Json) (lo hi : Int) : Bool :=
  match asPyInt v with
  | some n => decide (lo ≤ n) && decide (n ≤ hi)
  | none => false

/-- Python `str(...)` of a value as interpolated into the error f-strings
(`None` for a missing key). -/
def pyStr : Option Json → String
  | none => "None"
  | some .jnull => "None"
  | some (.jbool true) => "True"
  | some (.jbool false) => "False"
  | some (.jint n) => toString n
  | some (.jfloat lex) => lex
  | some (.jstr s) => s
  | some (.jarr _) => "[...]"
  | some (.jobj _) => "\x7b...\x7d"

/-! ## tools/score_papers.py: parse_score_response -/

/-- Index of the first occurrence of a character, if any. -/
def firstIdx (c : Char) : List Char → Option Nat
  | [] => none
  | x :: xs => if x = c then some 0 else (firstIdx c xs).map (· + 1)

/-- Index of the last occurrence of a character, if any. -/
def lastIdx (c : Char) (cs : List Char) : Option Nat :=
  (firstIdx c cs.reverse).map (fun i => cs.length - 1 - i)

/-- The fallback `re.search(r"\x7b.*\x7d", text, re.S)`: with the greedy
`.*` under DOTALL the match, when one exists, runs from the first opening
brace to the last closing brace of the whole text. -/
def regexFallback (text : String) : Option String :=
  let cs := text.data
  match firstIdx '\x7b' cs, lastIdx '\x7d' cs with
  | some i, some j => if i < j then some ⟨(cs.drop i).take (j - i + 1)⟩ else none
  | _, _ => none

/-- The range/field validation block of `parse_score_response`, applied to
the decoded value; returns the value itself on success. -/
def validateScoreData (data : Json) : Except String Json :=
  match data with
  | .jobj _ =>
    if in_range (jlookup data "score") 1 10 then
      if in_range (jlookup data "novelty") 1 3 then
        if in_range (jlookup data "impact") 1 4 then
          if in_range (jlookup data "results") 1 2 then
            if in_range (jlookup data "accessibility") 0 1 then
              match jlookup data "reasoning" with
              | some (.jstr s) =>
                if (pyStrip s).length < 8 then .error "missing/short reasoning"
                else .ok data
              | _ => .error "missing/short reasoning"
            else .error ("accessibility out of range: " ++ pyStr (jlookup data "accessibility"))
          else .error ("results out of range: " ++ pyStr (jlookup data "results"))
        else .error ("impact out of range: " ++ pyStr (jlookup data "impact"))
      else .error ("novelty out of range: " ++ pyStr (jlookup data "novelty"))
    else .error ("score out of range: " ++ pyStr (jlookup data "score"))
  | _ => .error "AttributeError"

/-- The fence-stripping preamble of `parse_score_response`:
`s = text.strip().replace("```json", "```")`, then peel a surrounding
`` ``` `` pair. -/
def cleanText (text : String) : String :=
  let s0 := pyReplace (pyStrip text) "```json" "```"
  if pyStarts s0 "```" && pyEnds s0 "```" then
    pyStrip (pyDropRight (pyDropLeft s0 3) 3)
  else s0

/-- `parse_score_response(text)`: strip markdown fences, try a direct
decode of the cleaned text, fall back to the greedy brace regex over the
original text, then validate. -/
def parse_score_response (text : String) : Except String Json :=
  match loads (cleanText text) with
  | .ok data => validateScoreData data
  | .error _ =>
    match regexFallback text with
    | none => .error "No JSON object found in response"
    | some sub =>
      match loads sub with
      | .ok data => validateScoreData data
      | .error msg => .error msg

/-! ## tools/score_papers.py: main scoring step and persistence input -/

/-- One entry of `scored_results` in `main`. -/
structure ScoredItem where
  paper_id : Int
  data : Json
  raw_score : Int
  rescaled_score : Int
  reasoning_category : Option String
deriving Repr

/-- `data['novelty'] + data['impact'] + data['results'] +
data['accessibility']` — the sum `main` recomputes, overriding the
model's own "score" field. -/
def calculated_score (data : Json) : Option Int :=
  match asPyInt (jlookup data "novelty"), asPyInt (jlookup data "impact"),
        asPyInt (jlookup data "results"), asPyInt (jlookup data "accessibility") with
  | some nv, some im, some rs, some ac => some (nv + im + rs + ac)
  | _, _, _, _ => none

/-- The per-paper body of `main`'s scoring loop: parse and validate the
response, recompute the composite, and build the `scored_results` entry
whose `raw_score` is later persisted verbatim by `save_score`. -/
def score_paper_result (pid : Int) (cat : Option String) (text : String) :
    Except String ScoredItem :=
  match parse_score_response text with
  | .error e => .error e
  | .ok data =>
    match calculated_score data with
    | some c =>
      .ok { paper_id := pid, data := data, raw_score := c, rescaled_score := c,
            reasoning_category := cat }
    | none => .error "TypeError"

/-! ## tools/score_papers.py: select_rows -/

/-- A row of the `papers` table, with the columns `select_rows` touches. -/
structure DBPaper where
  id : Int
  title : String
  tldr : Option String
  summary_md : Option String
  reasoning_category : Option String
  excitement_score : Option Int
deriving Repr, DecidableEq

/-- `summary_md IS NOT NULL AND summary_md <> ''`. -/
def summaryNonEmpty (r : DBPaper) : Bool :=
  match r.summary_md with
  | none => false
  | some s => s != ""

/-- `COALESCE(excitement_score, 0)`. -/
def coalesceScore (r : DBPaper) : Int := r.excitement_score.getD 0

def insertDesc (x : DBPaper) : List DBPaper → List DBPaper
  | [] => [x]
  | y :: ys => if x.id ≥ y.id then x :: y :: ys else y :: insertDesc x ys

/-- `ORDER BY id DESC`. -/
def sortByIdDesc (rows : List DBPaper) : List DBPaper := rows.foldr insertDesc []

/-- `select_rows(conn, ids, force, limit)` over a table modelled as a row
list: with explicit ids, filter to those ids (no LIMIT); otherwise take
the most recent `limit` rows; in both branches require a non-empty
`summary_md` and, unless forcing, `COALESCE(excitement_score,0)=0`. -/
def select_rows (table : List DBPaper) (ids : List Int) (force : Bool)
    (limit : Nat) : List DBPaper :=
  if ids ≠ [] then
    sortByIdDesc (table.filter (fun r =>
      ids.contains r.id && summaryNonEmpty r
        && (force || decide (coalesceScore r = 0))))
  else
    (sortByIdDesc (table.filter (fun r =>
      summaryNonEmpty r && (force || decide (coalesceScore r = 0))))).take limit

/-! ## tools/summarize_papers.py: per-paper loop body -/

/-- Outcome of the `triage_paper` call: a decision dict, or a raised
exception. -/
inductive TriageOutcome where
  | ok (relevant : Bool) (reason : String)
  | err (msg : String)
deriving Repr, DecidableEq

/-- What `main`'s loop body does with one paper. -/
inductive PaperAction where
  | skipAlready
  | markSkipped (reason : String)
  | trySummary
deriving Repr, DecidableEq

/-- The control flow of `main`'s per-paper body in summarize_papers.py:
skip papers that already carry a real (non-sentinel) summary unless
forced; otherwise triage — an exception from triage falls through to the
full summary attempt, an irrelevant verdict persists the skip sentinel,
and a relevant verdict proceeds to the summary. -/
def summarize_step (force : Bool) (summary_md : String)
    (triage : TriageOutcome) : PaperAction :=
  if (summary_md != "") && !(pyInStr "[Skipped" summary_md) && !force then
    .skipAlready
  else
    match triage with
    | .err _ => .trySummary
    | .ok relevant reason => if relevant then .trySummary else .markSkipped reason

/-- The loop over the fetched batch, one action per row; a per-paper
failure never removes later rows from processing. -/
def summarize_batch (force : Bool) (papers : List (String × TriageOutcome)) :
    List PaperAction :=
  papers.map (fun p => summarize_step force p.1 p.2)

/-! ## tools/score_papers.py: apply_rescaling

The Python floats are modelled as real numbers; `raw_score` and the
persisted `rescaled_score` are integers as in the code. -/

/-- The module-level guard `if SCORE_TARGET_STD <= 0: SCORE_TARGET_STD = 1.0`. -/
noncomputable def guardTargetStd (v : ℝ) : ℝ := if v ≤ 0 then 1 else v

/-- Python 3 `round` to an integer: nearest integer, ties to the even one. -/
noncomputable def pyRound (x : ℝ) : ℤ :=
  if Int.fract x = 1 / 2 then (if Even ⌊x⌋ then ⌊x⌋ else ⌊x⌋ + 1) else round x

/-- `_mean_std(values)`: population mean and standard deviation, with the
single-value and near-zero guards substituting 1.0. -/
noncomputable def mean_std (values : List ℝ) : ℝ × ℝ :=
  let mean := values.sum / (values.length : ℝ)
  if values.length = 1 then (mean, 1)
  else
    let variance := (values.map (fun v => (v - mean) ^ 2)).sum / (values.length : ℝ)
    let std := Real.sqrt variance
    (mean, if std < 1e-6 then 1 else std)

/-- `_category_key(value)`: `None` stays `None`, and a value that strips
to the empty string becomes `None`. -/
def category_key : Option String → Option String
  | none => none
  | some v => if pyStrip v = "" then none else some (pyStrip v)

/-- `category_scores.setdefault(key, []).append(raw)` over an
insertion-ordered association list. -/
def addToGroup (k : Option String) (v : ℝ) :
    List (Option String × List ℝ) → List (Option String × List ℝ)
  | [] => [(k, [v])]
  | (k', vs) :: rest =>
    if k' = k then (k', vs ++ [v]) :: rest else (k', vs) :: addToGroup k v rest

/-- The `category_scores` grouping loop of `apply_rescaling`. -/
def groupScores (batch : List ScoredItem) : List (Option String × List ℝ) :=
  batch.foldl
    (fun acc it => addToGroup (category_key it.reasoning_category) (it.raw_score : ℝ) acc) []

/-- Key lookup in the computed `category_stats` dict. -/
def lookupCat : List (Option String × (ℝ × ℝ)) → Option String → Option (ℝ × ℝ)
  | [], _ => none
  | (k, s) :: rest, key => if k = key then some s else lookupCat rest key

/-- `apply_rescaling(batch_results)` with the module configuration made
explicit: the empty batch returns at once; when rescaling is disabled
every item's `rescaled_score` is set to its `raw_score`; when enabled,
each item is mapped through the z-score of the chosen statistics,
scaled to the target mean/spread, clamped to [1, 10] and rounded. -/
noncomputable def apply_rescaling (enabled : Bool) (mode : String) (tm ts : ℝ)
    (batch : List ScoredItem) : List ScoredItem :=
  if batch.isEmpty then batch
  else if !enabled then
    batch.map (fun it => { it with rescaled_score := it.raw_score })
  else
    let global_stats := mean_std (batch.map (fun it => (it.raw_score : ℝ)))
    let category_stats : List (Option String × (ℝ × ℝ)) :=
      if mode == "per_category" then
        (groupScores batch).filterMap
          (fun g => if 3 ≤ g.2.length then some (g.1, mean_std g.2) else none)
      else []
    batch.map (fun it =>
      let stats :=
        if mode == "per_category" then
          match lookupCat category_stats (category_key it.reasoning_category) with
          | some s => s
          | none => global_stats
        else global_stats
      let z : ℝ := if stats.2 < 1e-6 then 0 else ((it.raw_score : ℝ) - stats.1) / stats.2
      { it with rescaled_score := pyRound (min 10 (max 1 (tm + z * ts))) })

/-! ## Concrete scoring responses and rows used to evaluate the code -/

/-- A response whose self-reported total (9) disagrees with the dimension
sum (7). -/
def c1text : String :=
  "\x7b\"score\": 9, \"novelty\": 2, \"impact\": 3, \"results\": 1, \"accessibility\": 1, \"reasoning\": \"Self-reported nine ignored.\"\x7d"

/-- The `scored_results` entry `main` builds for `c1text`. -/
def c1item : ScoredItem :=
  { paper_id := 3
    data := .jobj [("score", .jint 9), ("novelty", .jint 2), ("impact", .jint 3),
                   ("results", .jint 1), ("accessibility", .jint 1),
                   ("reasoning", .jstr "Self-reported nine ignored.")]
    raw_score := 7
    rescaled_score := 7
    reasoning_category := none }

/-- As `c1item.data` but with a different self-reported total. -/
def c1dataLo : Json :=
  .jobj [("score", .jint 1), ("novelty", .jint 2), ("impact", .jint 3),
         ("results", .jint 1), ("accessibility", .jint 1),
         ("reasoning", .jstr "Self-reported nine ignored.")]

/-- Text holding two complete JSON objects in sequence. -/
def c2text : String :=
  "First: \x7b\"a\": 1\x7d and second: \x7b\"b\": 2\x7d"

/-- The row the scoring selection is evaluated on: a paper whose summary
holds the triage skip sentinel and which has no score yet. -/
def c4row : DBPaper :=
  { id := 1
    title := "Sentinel paper"
    tldr := some "triage reason"
    summary_md := some "[Skipped - Not relevant to reasoning]"
    reasoning_category := none
    excitement_score := some 0 }

/-- The repository's own aliasing test input: `accessibility` present,
`access` absent, no `score` field. -/
def c5testText : String :=
  "\x7b\"novelty\": 2, \"utility\": 1, \"results\": 1, \"accessibility\": 1, \"reasoning\": \"Good paper with code.\"\x7d"

/-- A response that passes every check of the shipped validator while
carrying `accessibility` and no `access` field. -/
def c5fullText : String :=
  "\x7b\"score\": 7, \"novelty\": 2, \"impact\": 3, \"results\": 1, \"accessibility\": 1, \"reasoning\": \"Good paper with code.\"\x7d"

/-- The object decoded from `c5fullText`. -/
def c5fullData : Json :=
  .jobj [("score", .jint 7), ("novelty", .jint 2), ("impact", .jint 3),
         ("results", .jint 1), ("accessibility", .jint 1),
         ("reasoning", .jstr "Good paper with code.")]

/-- A response whose only defect is a negative `novelty`. -/
def c6negText : String :=
  "\x7b\"score\": 5, \"novelty\": -1, \"impact\": 2, \"results\": 1, \"accessibility\": 1, \"reasoning\": \"Negative dimension test.\"\x7d"

/-- A response whose only defect is a fractional `novelty`. -/
def c6fracText : String :=
  "\x7b\"score\": 5, \"novelty\": 2.5, \"impact\": 2, \"results\": 1, \"accessibility\": 1, \"reasoning\": \"Fractional dimension test.\"\x7d"

/-- A fully valid response, used to instantiate the validated-success
statements. -/
def c6okText : String :=
  "\x7b\"score\": 6, \"novelty\": 2, \"impact\": 2, \"results\": 1, \"accessibility\": 1, \"reasoning\": \"Valid response for witness.\"\x7d"

/-- The object decoded from `c6okText`. -/
def c6okData : Json :=
  .jobj [("score", .jint 6), ("novelty", .jint 2), ("impact", .jint 2),
         ("results", .jint 1), ("accessibility", .jint 1),
         ("reasoning", .jstr "Valid response for witness.")]

/-- A response with valid dimension values and reasoning but no `score`
field at all. -/
def c10text : String :=
  "\x7b\"novelty\": 2, \"impact\": 3, \"results\": 1, \"accessibility\": 1, \"reasoning\": \"Strong methodology with clear improvements.\"\x7d"

/-- An item whose stale `rescaled_score` differs from its `raw_score`
before the identity pass. -/
def c7item : ScoredItem :=
  { paper_id := 1, data := .jnull, raw_score := 5, rescaled_score := 9,
    reasoning_category := none }

/-- Higher-raw-score item of the monotonicity batch. -/
def c8a : ScoredItem :=
  { paper_id := 1, data := .jnull, raw_score := 8, rescaled_score := 8,
    reasoning_category := none }

/-- Lower-raw-score item of the monotonicity batch. -/
def c8b : ScoredItem :=
  { paper_id := 2, data := .jnull, raw_score := 4, rescaled_score := 4,
    reasoning_category := none }

/-! ## Inversion lemmas for the validator -/

/-- A value accepted by the validation block is returned unchanged and has
every rubric field inside the checked bounds. -/
theorem validateScoreData_ok {d e : Json} (h : validateScoreData d = .ok e) :
    e = d ∧
    in_range (jlookup d "score") 1 10 = true ∧
    in_range (jlookup d "novelty") 1 3 = true ∧
    in_range (jlookup d "impact") 1 4 = true ∧
    in_range (jlookup d "results") 1 2 = true ∧
    in_range (jlookup d "accessibility") 0 1 = true := by
  unfold validateScoreData at h
  repeat' split at h
  all_goals first
    | exact Except.noConfusion h
    | (injection h with h
       exact ⟨h.symm, by assumption, by assumption, by assumption, by assumption,
         by assumption⟩)

/-- Every object `parse_score_response` returns has passed the validation
block. -/
theorem parse_score_response_ok {text : String} {d : Json}
    (h : parse_score_response text = .ok d) : validateScoreData d = .ok d := by
  unfold parse_score_response at h
  split at h
  · have he := (validateScoreData_ok h).1
    subst he
    exact h
  · split at h
    · exact Except.noConfusion h
    · split at h
      · have he := (validateScoreData_ok h).1
        subst he
        exact h
      · exact Except.noConfusion h

/-- Inverting a successful composite computation recovers the four
dimension values. -/
theorem calculated_score_some {data : Json} {c : Int}
    (h : calculated_score data = some c) :
    ∃ nv im rs ac : Int,
      asPyInt (jlookup data "novelty") = some nv ∧
      asPyInt (jlookup data "impact") = some im ∧
      asPyInt (jlookup data "results") = some rs ∧
      asPyInt (jlookup data "accessibility") = some ac ∧
      c = nv + im + rs + ac := by
  unfold calculated_score at h
  split at h
  · next nv im rs ac hn hi hr ha =>
    injection h with h
    exact ⟨nv, im, rs, ac, hn, hi, hr, ha, h.symm⟩
  · exact Option.noConfusion h

/-! ## Claims about the scoring parser and composite -/

/-- C1: the composite persisted as `raw_score` is recomputed as the sum of
the four rubric dimension values of the validated response, and the
computation reads only those four fields — it is independent of the
model's self-reported "score" value. -/
theorem raw_score_is_dimension_sum :
    (∀ (pid : Int) (cat : Option String) (text : String) (item : ScoredItem),
      score_paper_result pid cat text = .ok item →
      ∃ nv im rs ac : Int,
        asPyInt (jlookup item.data "novelty") = some nv ∧
        asPyInt (jlookup item.data "impact") = some im ∧
        asPyInt (jlookup item.data "results") = some rs ∧
        asPyInt (jlookup item.data "accessibility") = some ac ∧
        item.raw_score = nv + im + rs + ac) ∧
    (∀ d₁ d₂ : Json,
      jlookup d₁ "novelty" = jlookup d₂ "novelty" →
      jlookup d₁ "impact" = jlookup d₂ "impact" →
      jlookup d₁ "results" = jlookup d₂ "results" →
      jlookup d₁ "accessibility" = jlookup d₂ "accessibility" →
      calculated_score d₁ = calculated_score d₂) := by
  constructor
  · intro pid cat text item h
    unfold score_paper_result at h
    split at h
    · exact Except.noConfusion h
    · split at h
      · next c hc =>
        injection h with h
        obtain ⟨nv, im, rs, ac, hn, hi, hr, ha, hsum⟩ := calculated_score_some hc
        subst h
        exact ⟨nv, im, rs, ac, hn, hi, hr, ha, hsum⟩
      · exact Except.noConfusion h
  · intro d₁ d₂ h1 h2 h3 h4
    unfold calculated_score
    rw [h1, h2, h3, h4]

/-- The composite statement evaluated on a concrete response whose
self-reported total is 9 while the dimensions sum to 7, and on the same
response with the total changed. -/
theorem raw_score_is_dimension_sum_witness :
    (∃ nv im rs ac : Int,
      asPyInt (jlookup c1item.data "novelty") = some nv ∧
      asPyInt (jlookup c1item.data "impact") = some im ∧
      asPyInt (jlookup c1item.data "results") = some rs ∧
      asPyInt (jlookup c1item.data "accessibility") = some ac ∧
      c1item.raw_score = nv + im + rs + ac) ∧
    calculated_score c1item.data = calculated_score c1dataLo :=
  ⟨raw_score_is_dimension_sum.1 3 none c1text c1item (by rfl),
   raw_score_is_dimension_sum.2 c1item.data c1dataLo rfl rfl rfl rfl⟩

/-- C2: on text holding two complete objects, the fallback extraction is
the greedy span from the first opening brace to the last closing brace of
the whole text — not the first complete object — and decoding that span
fails, so the parse raises instead of returning the first object. -/
theorem extraction_takes_greedy_span :
    regexFallback c2text = some "\x7b\"a\": 1\x7d and second: \x7b\"b\": 2\x7d" ∧
    ("\x7b\"a\": 1\x7d and second: \x7b\"b\": 2\x7d" : String) ≠ "\x7b\"a\": 1\x7d" ∧
    parse_score_response c2text = .error "Extra data" :=
  ⟨rfl, by decide, rfl⟩

/-- C9: text without any opening brace and text whose opening brace never
closes produce the same "No JSON object found in response" error — there
is no distinct "unbalanced delimiters" error kind in the shipped code. -/
theorem unbalanced_braces_same_error :
    parse_score_response "no json here" = .error "No JSON object found in response" ∧
    parse_score_response "\x7b\"incomplete\": 1" =
      .error "No JSON object found in response" :=
  ⟨rfl, rfl⟩

/-- C5: the shipped validator accepts a response carrying the legacy
`accessibility` field without copying it into any `access` field, and it
rejects the repository's own aliasing test input outright because that
input has no `score` field. -/
theorem accessibility_alias_absent :
    parse_score_response c5testText = .error "score out of range: None" ∧
    parse_score_response c5fullText = .ok c5fullData ∧
    jlookup c5fullData "access" = none ∧
    jlookup c5fullData "accessibility" = some (.jint 1) :=
  ⟨rfl, rfl, rfl, rfl⟩

/-- C6: a successfully validated response has every rubric dimension
inside its hardcoded bounds (so any response with an out-of-range value
cannot validate); a float value never counts as in range, so a fractional
dimension is rejected rather than truncated; and the negative and
fractional probes each fail with an error naming the offending
dimension. -/
theorem dimension_bounds_enforced :
    (∀ (text : String) (data : Json),
        parse_score_response text = .ok data →
        in_range (jlookup data "novelty") 1 3 = true ∧
        in_range (jlookup data "impact") 1 4 = true ∧
        in_range (jlookup data "results") 1 2 = true ∧
        in_range (jlookup data "accessibility") 0 1 = true) ∧
    (∀ (lex : String) (lo hi : Int), in_range (some (.jfloat lex)) lo hi = false) ∧
    parse_score_response c6negText = .error "novelty out of range: -1" ∧
    parse_score_response c6fracText = .error "novelty out of range: 2.5" := by
  refine ⟨?_, ?_, rfl, rfl⟩
  · intro text data h
    have hv := validateScoreData_ok (parse_score_response_ok h)
    exact ⟨hv.2.2.1, hv.2.2.2.1, hv.2.2.2.2.1, hv.2.2.2.2.2⟩
  · intro lex lo hi
    rfl

/-- The bound statements evaluated on a concrete validated response and on
a concrete float value. -/
theorem dimension_bounds_enforced_witness :
    (in_range (jlookup c6okData "novelty") 1 3 = true ∧
     in_range (jlookup c6okData "impact") 1 4 = true ∧
     in_range (jlookup c6okData "results") 1 2 = true ∧
     in_range (jlookup c6okData "accessibility") 0 1 = true) ∧
    in_range (some (.jfloat "2.5")) 1 3 = false :=
  ⟨dimension_bounds_enforced.1 c6okText c6okData (by rfl),
   dimension_bounds_enforced.2.1 "2.5" 1 3⟩

/-- C10: every response `parse_score_response` accepts carries a
self-reported "score" passing the integer 1–10 range check, and a response
with valid dimension values but no "score" field is rejected with a
"score out of range: None" error. -/
theorem score_field_required :
    (∀ (text : String) (data : Json),
        parse_score_response text = .ok data →
        in_range (jlookup data "score") 1 10 = true) ∧
    parse_score_response c10text = .error "score out of range: None" := by
  refine ⟨?_, rfl⟩
  intro text data h
  exact (validateScoreData_ok (parse_score_response_ok h)).2.1

/-- The score-presence statement evaluated on a concrete accepted
response. -/
theorem score_field_required_witness :
    in_range (jlookup c6okData "score") 1 10 = true :=
  score_field_required.1 c6okText c6okData (by rfl)

/-! ## Claims about selection and the summarization loop -/

/-- C4: evaluating the scoring selection on a table holding one paper
whose summary is the triage skip sentinel and whose score is zero, without
force mode, the sentinel paper is selected for scoring. -/
theorem skipped_sentinel_is_selected :
    select_rows [c4row] [] false 10 = [c4row] ∧
    pyInStr "[Skipped" "[Skipped - Not relevant to reasoning]" = true :=
  ⟨rfl, rfl⟩

/-- C3: a paper whose triage call raises is never marked with the skip
sentinel; if it reached the triage call at all (it was not dropped as
already summarized) it proceeds to the full summary attempt; and the batch
loop always produces one action per fetched row, so no triage failure
aborts the batch. -/
theorem triage_error_still_summarizes :
    (∀ (force : Bool) (smd msg : String),
        summarize_step force smd (.err msg) ≠ .skipAlready →
        summarize_step force smd (.err msg) = .trySummary) ∧
    (∀ (force : Bool) (smd msg reason : String),
        summarize_step force smd (.err msg) ≠ .markSkipped reason) ∧
    (∀ (force : Bool) (papers : List (String × TriageOutcome)),
        (summarize_batch force papers).length = papers.length) := by
  refine ⟨?_, ?_, ?_⟩
  · intro force smd msg h
    cases hgate : ((smd != "") && !(pyInStr "[Skipped" smd) && !force) with
    | true => exact absurd (by simp [summarize_step, hgate]) h
    | false => simp [summarize_step, hgate]
  · intro force smd msg reason
    cases hgate : ((smd != "") && !(pyInStr "[Skipped" smd) && !force) <;>
      simp [summarize_step, hgate]
  · intro force papers
    simp [summarize_batch]

/-- The triage-failure statement evaluated on a fresh paper whose triage
raised. -/
theorem triage_error_still_summarizes_witness :
    summarize_step false "" (.err "provider down") = .trySummary ∧
    (summarize_batch false [("", .err "provider down")]).length = 1 :=
  ⟨triage_error_still_summarizes.1 false "" "provider down" (by decide),
   triage_error_still_summarizes.2.2 false [("", .err "provider down")]⟩

/-! ## Claims about the rescaler -/

theorem guardTargetStd_pos (v : ℝ) : 0 < guardTargetStd v := by
  unfold guardTargetStd
  split
  · exact one_pos
  · next h => exact not_le.mp h

/-- Python's round-half-even is monotone. -/
theorem pyRound_mono {x y : ℝ} (hxy : x ≤ y) : pyRound x ≤ pyRound y := by
  rcases eq_or_lt_of_le hxy with rfl | hlt
  · exact le_rfl
  unfold pyRound
  by_cases hx : Int.fract x = 1 / 2 <;> by_cases hy : Int.fract y = 1 / 2
  · rw [if_pos hx, if_pos hy]
    have h0 := Int.floor_add_fract x
    rw [hx] at h0
    have h1 := Int.floor_add_fract y
    rw [hy] at h1
    have hfl : ⌊x⌋ < ⌊y⌋ := by
      have hr : (⌊x⌋ : ℝ) < (⌊y⌋ : ℝ) := by linarith
      exact_mod_cast hr
    split <;> split <;> omega
  · rw [if_pos hx, if_neg hy]
    have h0 := Int.floor_add_fract x
    rw [hx] at h0
    have h2 : (⌊x⌋ : ℤ) + 1 ≤ round y := by
      rw [round_eq, Int.le_floor]
      push_cast
      linarith
    split <;> omega
  · rw [if_neg hx, if_pos hy]
    have h0 := Int.floor_add_fract y
    rw [hy] at h0
    have h2 : round x ≤ ⌊y⌋ := by
      rw [round_eq]
      have h3 : ⌊x + 1 / 2⌋ < ⌊y⌋ + 1 := by
        rw [Int.floor_lt]
        push_cast
        linarith
      omega
    split <;> omega
  · rw [if_neg hx, if_neg hy]
    rw [round_eq, round_eq]
    exact Int.floor_mono (by linarith)

/-- The per-item z-score/scale/clamp/round computation of
`apply_rescaling` is monotone in the raw score for fixed statistics and a
nonnegative target spread. -/
theorem rescaleZ_mono (tm ts mean std : ℝ) (hts : 0 ≤ ts) {a b : ℝ} (hab : a ≤ b) :
    pyRound (min 10 (max 1 (tm + (if std < 1e-6 then 0 else (a - mean) / std) * ts))) ≤
      pyRound (min 10 (max 1 (tm + (if std < 1e-6 then 0 else (b - mean) / std) * ts))) := by
  apply pyRound_mono
  apply min_le_min le_rfl
  apply max_le_max le_rfl
  by_cases h : std < 1e-6
  · simp only [if_pos h]
    exact le_rfl
  · simp only [if_neg h]
    have hstd : 0 < std := by
      have h6 : (0 : ℝ) < 1e-6 := by norm_num
      have h7 := not_lt.mp h
      linarith
    have hdiv : (a - mean) / std ≤ (b - mean) / std :=
      (div_le_div_iff_of_pos_right hstd).mpr (by linarith)
    have h8 := mul_le_mul_of_nonneg_right hdiv hts
    linarith

/-- On a non-empty batch in global mode, `apply_rescaling` maps every item
through the z-score transform built from the batch statistics. -/
theorem apply_rescaling_global (tm ts : ℝ) (batch : List ScoredItem)
    (hne : batch.isEmpty = false) :
    apply_rescaling true "global" tm ts batch =
      batch.map (fun it =>
        { it with rescaled_score := pyRound (min 10 (max 1 (tm +
            (if (mean_std (batch.map (fun x => (x.raw_score : ℝ)))).2 < 1e-6 then 0
             else ((it.raw_score : ℝ) - (mean_std (batch.map (fun x => (x.raw_score : ℝ)))).1) /
               (mean_std (batch.map (fun x => (x.raw_score : ℝ)))).2) * ts))) }) := by
  have hmode : (("global" : String) == "per_category") = false := by decide
  simp [apply_rescaling, hne, hmode]

/-- Positional form of the global-mode rescaling map. -/
theorem apply_rescaling_global_getD (tm ts : ℝ) (batch : List ScoredItem)
    (hne : batch.isEmpty = false) (k : Nat) (hk : k < batch.length) (d : ScoredItem) :
    (apply_rescaling true "global" tm ts batch).getD k d =
      { batch.getD k d with rescaled_score := pyRound (min 10 (max 1 (tm +
          (if (mean_std (batch.map (fun x : ScoredItem => (x.raw_score : ℝ)))).2 < 1e-6 then 0
           else (((batch.getD k d).raw_score : ℝ) -
               (mean_std (batch.map (fun x : ScoredItem => (x.raw_score : ℝ)))).1) /
             (mean_std (batch.map (fun x : ScoredItem => (x.raw_score : ℝ)))).2) * ts))) } := by
  rw [apply_rescaling_global _ _ _ hne]
  rw [List.getD_eq_getElem _ _ (by simpa using hk)]
  rw [List.getElem_map]
  rw [List.getD_eq_getElem _ _ hk]

/-- C7: with rescaling disabled, every item of the rescaled batch carries
a `rescaled_score` equal to its `raw_score` — the pass is the identity on
scores. -/
theorem rescale_disabled_identity :
    ∀ (mode : String) (tm ts : ℝ) (batch : List ScoredItem) (item : ScoredItem),
      item ∈ apply_rescaling false mode tm ts batch →
      item.rescaled_score = item.raw_score := by
  intro mode tm ts batch item h
  unfold apply_rescaling at h
  split at h
  · next hemp =>
    cases batch with
    | nil => exact absurd h (List.not_mem_nil item)
    | cons a l => simp at hemp
  · have h' : item ∈ batch.map (fun it => { it with rescaled_score := it.raw_score }) := by
      simpa using h
    rw [List.mem_map] at h'
    obtain ⟨a, _, heq⟩ := h'
    rw [← heq]

/-- The disabled-pass statement evaluated on a singleton batch whose item
enters with a stale rescaled score. -/
theorem rescale_disabled_identity_witness :
    ({ c7item with rescaled_score := c7item.raw_score } : ScoredItem).rescaled_score =
      ({ c7item with rescaled_score := c7item.raw_score } : ScoredItem).raw_score :=
  rescale_disabled_identity "global" 6.2 1.6 [c7item] _ (by
    have hres : apply_rescaling false "global" 6.2 1.6 [c7item]
        = [{ c7item with rescaled_score := c7item.raw_score }] := by
      simp [apply_rescaling]
    rw [hres]
    exact List.mem_singleton.mpr rfl)

/-- C8: enabled global-mode rescaling never inverts the raw order — for
any two positions of the batch, a strictly greater raw score yields a
greater-or-equal rescaled score, through the z-score map, clamping and
rounding, for any target mean and any target spread admitted by the
module's positivity guard. -/
theorem rescale_global_monotone :
    ∀ (tm tsRaw : ℝ) (batch : List ScoredItem) (i j : Nat) (d : ScoredItem)
      (hi : i < batch.length) (hj : j < batch.length),
      (∃ a ∈ batch, ∃ b ∈ batch, a.raw_score ≠ b.raw_score) →
      (batch.getD j d).raw_score < (batch.getD i d).raw_score →
      ((apply_rescaling true "global" tm (guardTargetStd tsRaw) batch).getD j d).rescaled_score ≤
        ((apply_rescaling true "global" tm (guardTargetStd tsRaw) batch).getD i d).rescaled_score := by
  intro tm tsRaw batch i j d hi hj _ hraw
  have hts : (0 : ℝ) ≤ guardTargetStd tsRaw := (guardTargetStd_pos tsRaw).le
  have hne : batch.isEmpty = false := by
    cases batch with
    | nil => exact absurd hi (by simp)
    | cons a l => rfl
  rw [apply_rescaling_global_getD tm (guardTargetStd tsRaw) batch hne j hj d,
      apply_rescaling_global_getD tm (guardTargetStd tsRaw) batch hne i hi d]
  exact rescaleZ_mono tm (guardTargetStd tsRaw)
    (mean_std (batch.map (fun x : ScoredItem => (x.raw_score : ℝ)))).1
    (mean_std (batch.map (fun x : ScoredItem => (x.raw_score : ℝ)))).2 hts
    (by exact_mod_cast hraw.le)

/-- The monotonicity statement evaluated on a two-item batch with raw
scores 8 and 4 and the default target mean/spread. -/
theorem rescale_global_monotone_witness :
    ((apply_rescaling true "global" 6.2 (guardTargetStd 1.6) [c8a, c8b]).getD 1 c8a).rescaled_score ≤
      ((apply_rescaling true "global" 6.2 (guardTargetStd 1.6) [c8a, c8b]).getD 0 c8a).rescaled_score :=
  rescale_global_monotone 6.2 1.6 [c8a, c8b] 0 1 c8a (by simp) (by simp)
    ⟨c8a, by simp, c8b, by simp, by decide⟩ (by decide)

end ReasoningHub
